import Mathlib

set_option maxHeartbeats 1000000

/-!
Shallow embedding of the VicinaeFFmpeg recording supervisor.

The repository has two TypeScript source files implementing the same
single-instance screen-recording supervisor:

* `src/unnamed/part_000` — the Detail-view extension (embedded in
  namespace `DetailView` below): `getOutputDir`, `checkIsRecording`,
  `stopRecording`, `detectDisplay`, `detectResolution`, `startRecording`,
  `readLogTail`.
* `src/src/toggle-recording.ts` — the one-shot toggle command (embedded in
  namespace `ToggleCmd` below): `isRecording`, `stopRecording`,
  `startRecording`.

The program state the supervisor touches is modelled by `World`: the
content of the PID marker file, the state of the log file, the set of
existing directories, and the set of operating-system process ids that
respond to a `kill -0` probe.  External inputs that the code reads
(preferences, environment variables, the outcome of shelling out, the
result of `spawn`, the current wall-clock date) are passed as explicit
arguments.  JavaScript string primitives used by the code
(`String.prototype.trim`, `String.prototype.split`, `Array.prototype.slice`,
`Array.prototype.join`, `path.join`) are embedded as executable functions
on `List Char` / `String` below.
-/

namespace VicinaeFFmpeg

/-- JavaScript `String.prototype.trim` whitespace class: ECMAScript
WhiteSpace ∪ LineTerminator (tab, LF, VT, FF, CR, space, NBSP, BOM,
the Unicode space separators, LS and PS). -/
def isJsWs (c : Char) : Bool :=
  c = ' ' || c = '\t' || c = '\n' || c = '\x0b' || c = '\x0c' || c = '\r' ||
  c = '\u00a0' || c = '\u1680' || c = '\u2000' || c = '\u2001' || c = '\u2002' ||
  c = '\u2003' || c = '\u2004' || c = '\u2005' || c = '\u2006' || c = '\u2007' ||
  c = '\u2008' || c = '\u2009' || c = '\u200a' || c = '\u2028' || c = '\u2029' ||
  c = '\u202f' || c = '\u205f' || c = '\u3000' || c = '\ufeff'

/-- `trim` on the character list: drop whitespace from both ends. -/
def jsTrimCh (l : List Char) : List Char :=
  ((l.dropWhile isJsWs).reverse.dropWhile isJsWs).reverse

/-- JavaScript `s.trim()`. -/
def jsTrimS (s : String) : String :=
  String.mk (jsTrimCh s.data)

/-- Splitting a character list at a separator character; `cur` is the
(reversed) chunk accumulated so far.  This is `String.prototype.split`
with a one-character separator. -/
def splitCharAux (sep : Char) (cur : List Char) : List Char → List (List Char)
  | [] => [cur.reverse]
  | c :: cs =>
      if c = sep then cur.reverse :: splitCharAux sep [] cs
      else splitCharAux sep (c :: cur) cs

/-- JavaScript `s.split(sep)` for a one-character separator. -/
def jsSplit (sep : Char) (s : String) : List String :=
  (splitCharAux sep [] s.data).map String.mk

/-- Node `path.join(a, b)` for the shapes occurring in this program: the
second component is appended after a single separator (a trailing slash on
`a` is not doubled).  Other normalisation done by `path.join` (empty
segments, `..`) does not occur in this program and is not modelled. -/
def pathJoin (a b : String) : String :=
  if a.data.getLast? = some '/' then a ++ b else a ++ "/" ++ b

/-- The decimal digit character for `n % 10`. -/
def digitChar (n : Nat) : Char :=
  ['0', '1', '2', '3', '4', '5', '6', '7', '8', '9'].getD (n % 10) '0'

/-- Two-digit zero-padded decimal rendering (exact for `n ≤ 99`), as
produced by `Date.prototype.toISOString` for month/day/hour/minute/second. -/
def pad2 (n : Nat) : List Char :=
  [digitChar (n / 10), digitChar n]

/-- Three-digit zero-padded decimal rendering (exact for `n ≤ 999`), the
milliseconds field of `toISOString`. -/
def pad3 (n : Nat) : List Char :=
  [digitChar (n / 100), digitChar (n / 10), digitChar n]

/-- Four-digit zero-padded decimal rendering (exact for `n ≤ 9999`), the
year field of `toISOString`. -/
def pad4 (n : Nat) : List Char :=
  [digitChar (n / 1000), digitChar (n / 100), digitChar (n / 10), digitChar n]

/-- A JavaScript `Date`, modelled by its UTC civil components exactly as
`toISOString` renders them. -/
structure JsDate where
  year : Nat
  month : Nat
  day : Nat
  hour : Nat
  minute : Nat
  second : Nat
  ms : Nat
deriving DecidableEq, Repr

/-- The components describe an actual `toISOString` output: in-range
fields and a four-digit year. -/
def JsDate.valid (d : JsDate) : Prop :=
  d.year ≤ 9999 ∧ 1 ≤ d.month ∧ d.month ≤ 12 ∧ 1 ≤ d.day ∧ d.day ≤ 31 ∧
  d.hour ≤ 23 ∧ d.minute ≤ 59 ∧ d.second ≤ 59 ∧ d.ms ≤ 999

instance (d : JsDate) : Decidable d.valid := by
  unfold JsDate.valid; infer_instance

/-- Days since 1970-01-01 of a civil date (proleptic Gregorian calendar,
the standard days-from-civil algorithm used by date libraries).  Used
only to recover the instant (epoch time) denoted by a `JsDate`. -/
def daysFromCivil (y m d : Int) : Int :=
  let y2 : Int := if m ≤ 2 then y - 1 else y
  let era : Int := Int.fdiv y2 400
  let yoe : Int := y2 - era * 400
  let mp : Int := if 2 < m then m - 3 else m + 9
  let doy : Int := Int.fdiv (153 * mp + 2) 5 + d - 1
  let doe : Int := yoe * 365 + Int.fdiv yoe 4 - Int.fdiv yoe 100 + doy
  era * 146097 + doe - 719468

/-- Milliseconds since the epoch of the instant a `JsDate` denotes; two
wall-clock times "differ by at least one second" when these values differ
by at least 1000. -/
def JsDate.epochMs (d : JsDate) : Int :=
  (daysFromCivil d.year d.month d.day * 86400 +
    (d.hour : Int) * 3600 + (d.minute : Int) * 60 + (d.second : Int)) * 1000 +
  (d.ms : Int)

/-- The characters of `d.toISOString()`:
`YYYY-MM-DDTHH:mm:ss.sssZ`. -/
def isoChars (d : JsDate) : List Char :=
  pad4 d.year ++ '-' :: pad2 d.month ++ '-' :: pad2 d.day ++
  'T' :: pad2 d.hour ++ ':' :: pad2 d.minute ++ ':' :: pad2 d.second ++
  '.' :: pad3 d.ms ++ ['Z']

/-- One step of `.replace(/[:.]/g, "-")`. -/
def sanitizeChar (c : Char) : Char :=
  if c = ':' || c = '.' then '-' else c

/-- `new Date().toISOString().replace(/[:.]/g, "-").slice(0, 19)`,
character-list form: the second-granularity timestamp embedded in the
output filename. -/
def timestampChars (d : JsDate) : List Char :=
  ((isoChars d).map sanitizeChar).take 19

/-- The timestamp as a string. -/
def timestamp (d : JsDate) : String :=
  String.mk (timestampChars d)

/-- `path.join(outputDir, "recording-" ++ timestamp ++ ".mp4")`: the
output file path both `startRecording` variants construct. -/
def outputFileFor (dir : String) (d : JsDate) : String :=
  pathJoin dir ("recording-" ++ timestamp d ++ ".mp4")

/-- The state of the log file as the supervisor can observe it. -/
inductive LogState where
  | absent
  | unreadable
  | content (s : String)
deriving DecidableEq, Repr

/-- `x?.trim() || dflt` and `x || dflt` patterns: `none` (undefined) and
the empty string are falsy. -/
def orElseStr (x : Option String) (dflt : String) : String :=
  match x with
  | none => dflt
  | some s => if s = "" then dflt else s

/-- The filesystem / OS state the supervisor reads and writes:
the PID marker file (`none` = absent, otherwise its text content), the
log file, the set of existing directories, and the process ids (as the
strings written to the marker) for which `kill -0` succeeds. -/
structure World where
  pidFile : Option String
  logFile : LogState
  dirs : List String
  alive : List String
deriving DecidableEq, Repr

/-- Outcome of `execSync` on the resolution pipeline: either the command
exits non-zero (`execSync` throws) or it succeeds with some output. -/
inductive ShellResult where
  | fails
  | succeeds (out : String)
deriving DecidableEq, Repr

/-- External inputs read by the code: `process.env.DISPLAY`, the outcome
of the `xdpyinfo | grep | awk` pipeline, `child.pid` after `spawn`
(`none` when the spawn failed, in which case `child.pid` is `undefined`),
the text of the spawn error, and `os.homedir()`. -/
structure Env where
  displayVar : Option String
  xdpyinfoOut : ShellResult
  spawnPid : Option Nat
  spawnErr : String
  home : String
deriving DecidableEq, Repr

namespace DetailView

/-- The `Preferences` interface of `src/unnamed/part_000`.  The fields are
declared as strings but are read with optional chaining (`?.`), so each is
modelled as possibly `undefined`. -/
structure Preferences where
  outputDir : Option String
  audioDevice : Option String
  fps : Option String
deriving DecidableEq, Repr

/-- `getOutputDir` (part_000 lines 26-32):
`prefs.outputDir?.trim() || path.join(os.homedir(), "Videos")`, then
`mkdirSync(dir, { recursive: true })` when the directory does not exist.
The recursive `mkdir` makes the directory and all its missing ancestors
exist; the model records the directory itself and its slash-separated
ancestor prefixes. -/
def getOutputDir (prefs : Preferences) (home : String) (w : World) : String × World :=
  let dir := orElseStr (prefs.outputDir.map jsTrimS) (pathJoin home "Videos")
  if w.dirs.contains dir then (dir, w)
  else
    let comps := splitCharAux '/' [] dir.data
    let ancestors :=
      (List.range (comps.length - 1)).map
        (fun k => String.mk (List.intercalate ['/'] (comps.take (k + 1))))
    (dir, { w with dirs := dir :: ancestors ++ w.dirs })

/-- The status record returned by `checkIsRecording`: `{ active: boolean;
pid?: string }`; an omitted `pid` property is `none`. -/
structure RecStatus where
  active : Bool
  pid : Option String
deriving DecidableEq, Repr

/-- `checkIsRecording` (part_000 lines 34-44): absent marker → inactive;
otherwise read and trim the marker content and probe the process with
`kill -0` (throws, and is caught, exactly when the process is not alive);
alive → active with the pid, not alive → delete the marker and report
inactive. -/
def checkIsRecording (w : World) : RecStatus × World :=
  match w.pidFile with
  | none => (⟨false, none⟩, w)
  | some content =>
      let pid := jsTrimS content
      if w.alive.contains pid then (⟨true, some pid⟩, w)
      else (⟨false, none⟩, { w with pidFile := none })

/-- `stopRecording` (part_000 lines 46-54): return immediately when the
marker is absent; otherwise read the pid and `execSync` a `kill -INT` and
a `sleep 1` inside a try/catch (both signal the external process only and
any failure is swallowed, so they do not change the tracked state), then
delete the marker, which still exists. -/
def stopRecording (w : World) : World :=
  match w.pidFile with
  | none => w
  | some _content => { w with pidFile := none }

/-- `detectDisplay` (part_000 lines 56-58): `process.env.DISPLAY || ":0"`. -/
def detectDisplay (env : Env) : String :=
  orElseStr env.displayVar ":0"

/-- `detectResolution` (part_000 lines 60-68): shell out to
`xdpyinfo | grep dimensions | awk`; if `execSync` throws, return
"1920x1080"; otherwise trim the output and fall back to "1920x1080" when
it is empty.  The `display` argument only parametrises the shell command. -/
def detectResolution (display : String) (r : ShellResult) : String :=
  match r with
  | .fails => "1920x1080"
  | .succeeds out =>
      let t := jsTrimS out
      if t = "" then "1920x1080" else t

/-- The ffmpeg argument list built by `startRecording` (part_000 lines
80-94). -/
def ffmpegArgs (display resolution audioDevice fps outputFile : String) : List String :=
  ["-y", "-f", "x11grab", "-framerate", fps, "-s", resolution,
   "-i", display ++ ".0+0,0", "-f", "pulse", "-i", audioDevice,
   "-vcodec", "libx264", "-preset", "ultrafast", "-pix_fmt", "yuv420p",
   "-acodec", "aac", "-b:a", "128k", outputFile]

/-- `startRecording` (part_000 lines 70-111).  Synchronously: resolve the
output directory, build the timestamped output path, resolve display /
resolution / audio / fps, truncate the log file to the command header,
`spawn` ffmpeg detached (never throws for a missing executable: the
failure is delivered later through the `error` event, and `child.pid` is
`undefined`), register an `error` handler that appends the spawn error to
the log, `unref`, and write `String(child.pid)` to the marker file.  The
returned `World` is the state once any pending `error` event has fired:
on spawn failure the log additionally holds the `SPAWN ERROR` line, and
the marker holds the string "undefined". -/
def startRecording (prefs : Preferences) (env : Env) (now : JsDate) (w : World) : World :=
  let dirAndW := getOutputDir prefs env.home w
  let outputDir := dirAndW.1
  let w1 := dirAndW.2
  let outputFile := outputFileFor outputDir now
  let display := detectDisplay env
  let resolution := detectResolution display env.xdpyinfoOut
  let audioDevice := orElseStr (prefs.audioDevice.map jsTrimS) "default"
  let fps := orElseStr (prefs.fps.map jsTrimS) "60"
  let args := ffmpegArgs display resolution audioDevice fps outputFile
  let header :=
    "CMD: ffmpeg " ++ String.intercalate " " args ++
    "\nDISPLAY: " ++ display ++ "\nOUTPUT: " ++ outputFile ++
    "\n\n--- FFMPEG OUTPUT ---\n"
  let logText :=
    match env.spawnPid with
    | some _ => header
    | none => header ++ "\nSPAWN ERROR: " ++ env.spawnErr ++ "\n"
  let pidStr :=
    match env.spawnPid with
    | some p => toString p
    | none => "undefined"
  { w1 with logFile := .content logText, pidFile := some pidStr }

/-- `readLogTail` (part_000 lines 113-124): absent log file → fixed "no
log yet" message; a read failure (caught by the surrounding try) → fixed
"could not read" message; otherwise trim the content, return the fixed
"empty" message when it is empty, and otherwise join the last 25 of its
newline-separated lines (`lines.slice(-25).join("\n")`). -/
def readLogTail (log : LogState) : String :=
  match log with
  | .absent => "_No log yet. Start a recording to see ffmpeg output here._"
  | .unreadable => "_Could not read log_"
  | .content s =>
      let content := jsTrimS s
      if content = "" then "_Log is empty_"
      else
        let lines := jsSplit '\n' content
        String.intercalate "\n" (lines.drop (lines.length - 25))

end DetailView

namespace ToggleCmd

/-- The `Preferences` interface of `src/src/toggle-recording.ts`. -/
structure Preferences where
  outputDir : Option String
  inputDevice : Option String
  audioDevice : Option String
  fps : Option String
  resolution : Option String
deriving DecidableEq, Repr

/-- `isRecording` (toggle-recording.ts lines 18-28): same marker /
`kill -0` logic as `checkIsRecording`, returning only the boolean and
deleting a stale marker. -/
def isRecording (w : World) : Bool × World :=
  match w.pidFile with
  | none => (false, w)
  | some content =>
      let pid := jsTrimS content
      if w.alive.contains pid then (true, w)
      else (false, { w with pidFile := none })

/-- `stopRecording` (toggle-recording.ts lines 30-41): reads the marker
file unconditionally (`fs.readFileSync(PID_FILE)` throws ENOENT when it
does not exist — there is no guard in this variant), sends `kill -INT`
inside a try/catch (external effect only), then deletes the marker if it
exists. -/
def stopRecording (w : World) : Except String World :=
  match w.pidFile with
  | none => .error "ENOENT"
  | some _content => .ok { w with pidFile := none }

/-- The ffmpeg argument list built by the toggle command (lines 50-60). -/
def ffmpegArgs (fps inputDevice audioDevice outputFile : String) : List String :=
  ["-f", "avfoundation", "-framerate", fps, "-capture_cursor", "1",
   "-i", inputDevice ++ ":" ++ audioDevice,
   "-vcodec", "libx264", "-preset", "ultrafast", "-pix_fmt", "yuv420p",
   "-acodec", "aac", outputFile]

/-- `startRecording` (toggle-recording.ts lines 43-69): output directory
is `prefs.outputDir || path.join(os.homedir(), "Desktop")` (no trim, no
mkdir), the output file is the same timestamped path, the log file is
truncated by `openSync(LOG_FILE, "w")` (its content is then produced by
the subprocess, outside this model), ffmpeg is spawned detached with no
`error` handler, and `String(child.pid)` is written to the marker — the
string "undefined" when the spawn failed. -/
def startRecording (prefs : Preferences) (env : Env) (now : JsDate) (w : World) : World :=
  let outputDir := orElseStr prefs.outputDir (pathJoin env.home "Desktop")
  let _outputFile := outputFileFor outputDir now
  let pidStr :=
    match env.spawnPid with
    | some p => toString p
    | none => "undefined"
  { w with logFile := .content "", pidFile := some pidStr }

end ToggleCmd

/-- "The path `p` resolves inside the directory `dir`": `p` extends `dir`
by exactly one separator (already present when `dir` ends in a slash) and
one non-empty component that contains no path separator. -/
def insideDir (dir p : String) : Prop :=
  ∃ f, f ≠ "" ∧ (∀ c ∈ f.data, c ≠ '/') ∧
    ((dir.data.getLast? = some '/' ∧ p = dir ++ f) ∨
     (dir.data.getLast? ≠ some '/' ∧ p = dir ++ "/" ++ f))

/-- A log content with 26 lines whose last line is whitespace-only: 25
lines "x" followed by a line holding a single space. -/
def spacedTailLog : String :=
  "x\nx\nx\nx\nx\nx\nx\nx\nx\nx\nx\nx\nx\nx\nx\nx\nx\nx\nx\nx\nx\nx\nx\nx\nx\n "

/-! ## Helper lemmas -/

theorem stringDataInj {s t : String} (h : s.data = t.data) : s = t := by
  cases s; cases t; exact congrArg String.mk h

theorem stringDataAppend (s t : String) : (s ++ t).data = s.data ++ t.data := rfl

/-- After `getOutputDir`, the resolved directory exists. -/
theorem getOutputDir_creates (prefs : DetailView.Preferences) (home : String) (w : World) :
    ((DetailView.getOutputDir prefs home w).2.dirs.contains
      (DetailView.getOutputDir prefs home w).1) = true := by
  unfold DetailView.getOutputDir
  by_cases hc : w.dirs.contains (orElseStr (prefs.outputDir.map jsTrimS) (pathJoin home "Videos")) = true
  · rw [if_pos hc]
    exact hc
  · rw [if_neg hc]
    simp [List.contains_cons]

theorem digitChar_injOn : ∀ a < 10, ∀ b < 10, digitChar a = digitChar b → a = b := by
  decide

theorem digitChar_mod_eq (n : Nat) : digitChar (n % 10) = digitChar n := by
  unfold digitChar
  rw [Nat.mod_mod_of_dvd n (dvd_refl 10)]

theorem digitChar_mod (a b : Nat) (h : digitChar a = digitChar b) : a % 10 = b % 10 := by
  refine digitChar_injOn (a % 10) (Nat.mod_lt _ (by omega)) (b % 10) (Nat.mod_lt _ (by omega)) ?_
  rw [digitChar_mod_eq, digitChar_mod_eq]
  exact h

theorem digitChar_ne_slash (n : Nat) : digitChar n ≠ '/' := by
  have h : n % 10 < 10 := Nat.mod_lt _ (by omega)
  unfold digitChar
  revert h
  generalize n % 10 = k
  intro h
  interval_cases k <;> decide

theorem sanitizeChar_digitChar (n : Nat) : sanitizeChar (digitChar n) = digitChar n := by
  have h : n % 10 < 10 := Nat.mod_lt _ (by omega)
  unfold digitChar
  revert h
  generalize n % 10 = k
  intro h
  interval_cases k <;> decide

/-- The sanitised, truncated timestamp in explicit fixed-width form:
`YYYY-MM-DDTHH-mm-ss` as nineteen characters. -/
theorem timestampChars_eq (d : JsDate) :
    timestampChars d =
      [digitChar (d.year / 1000), digitChar (d.year / 100), digitChar (d.year / 10),
       digitChar d.year,
       '-', digitChar (d.month / 10), digitChar d.month,
       '-', digitChar (d.day / 10), digitChar d.day,
       'T', digitChar (d.hour / 10), digitChar d.hour,
       '-', digitChar (d.minute / 10), digitChar d.minute,
       '-', digitChar (d.second / 10), digitChar d.second] := by
  unfold timestampChars isoChars pad4 pad3 pad2
  simp only [List.cons_append, List.nil_append, List.map_cons, List.map_nil,
    sanitizeChar_digitChar]
  rfl

theorem timestampChars_length (d : JsDate) : (timestampChars d).length = 19 := by
  rw [timestampChars_eq]
  rfl

theorem timestampChars_ne_slash (d : JsDate) : ∀ c ∈ timestampChars d, c ≠ '/' := by
  rw [timestampChars_eq]
  intro c hc
  simp only [List.mem_cons, List.not_mem_nil, or_false] at hc
  rcases hc with rfl | rfl | rfl | rfl | rfl | rfl | rfl | rfl | rfl | rfl | rfl | rfl | rfl |
    rfl | rfl | rfl | rfl | rfl | rfl
  all_goals first
    | exact digitChar_ne_slash _
    | decide

/-- Equal timestamps of valid dates force equal second-granularity
fields: the rendering is fixed-width and decimal digits are recovered
position by position. -/
theorem timestampChars_fields (d1 d2 : JsDate) (h1 : d1.valid) (h2 : d2.valid)
    (h : timestampChars d1 = timestampChars d2) :
    d1.year = d2.year ∧ d1.month = d2.month ∧ d1.day = d2.day ∧
    d1.hour = d2.hour ∧ d1.minute = d2.minute ∧ d1.second = d2.second := by
  rw [timestampChars_eq, timestampChars_eq] at h
  simp only [List.cons.injEq, and_true] at h
  obtain ⟨e1, e2, e3, e4, -, e5, e6, -, e7, e8, -, e9, e10, -, e11, e12, -, e13, e14⟩ := h
  have m1 := digitChar_mod _ _ e1
  have m2 := digitChar_mod _ _ e2
  have m3 := digitChar_mod _ _ e3
  have m4 := digitChar_mod _ _ e4
  have m5 := digitChar_mod _ _ e5
  have m6 := digitChar_mod _ _ e6
  have m7 := digitChar_mod _ _ e7
  have m8 := digitChar_mod _ _ e8
  have m9 := digitChar_mod _ _ e9
  have m10 := digitChar_mod _ _ e10
  have m11 := digitChar_mod _ _ e11
  have m12 := digitChar_mod _ _ e12
  have m13 := digitChar_mod _ _ e13
  have m14 := digitChar_mod _ _ e14
  unfold JsDate.valid at h1 h2
  refine ⟨?_, ?_, ?_, ?_, ?_, ?_⟩ <;> omega

/-- Two valid dates with equal second-granularity civil fields denote
instants less than one second apart. -/
theorem epoch_close_of_fields_eq (d1 d2 : JsDate) (h1 : d1.valid) (h2 : d2.valid)
    (hy : d1.year = d2.year) (hmo : d1.month = d2.month) (hd : d1.day = d2.day)
    (hh : d1.hour = d2.hour) (hmi : d1.minute = d2.minute) (hs : d1.second = d2.second) :
    d1.epochMs < d2.epochMs + 1000 ∧ d2.epochMs < d1.epochMs + 1000 := by
  unfold JsDate.epochMs
  rw [hy, hmo, hd, hh, hmi, hs]
  unfold JsDate.valid at h1 h2
  generalize daysFromCivil d2.year d2.month d2.day = D
  omega

theorem timestampData (d : JsDate) : (timestamp d).data = timestampChars d := rfl

/-- Distinct timestamps give distinct output file paths under the same
directory. -/
theorem outputFileFor_ne (dir : String) (d1 d2 : JsDate)
    (hne : timestampChars d1 ≠ timestampChars d2) :
    outputFileFor dir d1 ≠ outputFileFor dir d2 := by
  intro h
  apply hne
  unfold outputFileFor pathJoin at h
  by_cases hd : dir.data.getLast? = some '/'
  · rw [if_pos hd, if_pos hd] at h
    have hdata := congrArg String.data h
    simp only [stringDataAppend, timestampData, List.append_assoc] at hdata
    have h1 := List.append_cancel_left hdata
    have h2 := List.append_cancel_left h1
    exact List.append_cancel_right h2
  · rw [if_neg hd, if_neg hd] at h
    have hdata := congrArg String.data h
    simp only [stringDataAppend, timestampData, List.append_assoc] at hdata
    have h1 := List.append_cancel_left hdata
    have h2 := List.append_cancel_left h1
    have h3 := List.append_cancel_left h2
    exact List.append_cancel_right h3

/-- Every produced output file path sits directly inside the resolved
output directory: one separator and one non-empty, slash-free filename. -/
theorem outputFileFor_inside (dir : String) (d : JsDate) :
    insideDir dir (outputFileFor dir d) := by
  refine ⟨"recording-" ++ timestamp d ++ ".mp4", ?_, ?_, ?_⟩
  · intro h
    have hlen := congrArg (fun s => s.data.length) h
    simp only [stringDataAppend, timestampData, List.length_append,
      timestampChars_length] at hlen
    simp at hlen
  · intro c hc
    simp only [stringDataAppend, timestampData, List.append_assoc,
      List.mem_append] at hc
    rcases hc with hc | hc | hc
    · revert hc
      have : ∀ x ∈ "recording-".data, x ≠ '/' := by decide
      exact this c
    · exact timestampChars_ne_slash d c hc
    · revert hc
      have : ∀ x ∈ ".mp4".data, x ≠ '/' := by decide
      exact this c
  · unfold outputFileFor pathJoin
    by_cases hd : dir.data.getLast? = some '/'
    · exact Or.inl ⟨hd, by rw [if_pos hd]⟩
    · exact Or.inr ⟨hd, by rw [if_neg hd]⟩

/-! ## Claim theorems -/

/-- Claim C1: the status check returns inactive when the marker file is
absent; when the marker is present and the referenced (trimmed) process
id is alive it returns active with that id; when the marker is present
but the process is not alive it deletes the marker and returns inactive.
The toggle command's `isRecording` agrees with `checkIsRecording` on both
the boolean verdict and the resulting state. -/
theorem checkIsRecording_status_spec (w : World) :
    (w.pidFile = none → DetailView.checkIsRecording w = (⟨false, none⟩, w)) ∧
    (∀ c, w.pidFile = some c → jsTrimS c ∈ w.alive →
      DetailView.checkIsRecording w = (⟨true, some (jsTrimS c)⟩, w)) ∧
    (∀ c, w.pidFile = some c → jsTrimS c ∉ w.alive →
      DetailView.checkIsRecording w = (⟨false, none⟩, { w with pidFile := none })) ∧
    (ToggleCmd.isRecording w =
      ((DetailView.checkIsRecording w).1.active, (DetailView.checkIsRecording w).2)) := by
  refine ⟨fun h => ?_, fun c h ha => ?_, fun c h ha => ?_, ?_⟩
  · unfold DetailView.checkIsRecording; rw [h]
  · unfold DetailView.checkIsRecording; rw [h]; simp [ha]
  · unfold DetailView.checkIsRecording; rw [h]; simp [ha]
  · unfold DetailView.checkIsRecording ToggleCmd.isRecording
    cases hp : w.pidFile with
    | none => rfl
    | some c =>
        by_cases ha : jsTrimS c ∈ w.alive
        · simp [ha]
        · simp [ha]

/-- Claim C1 witness: the three cases evaluated at concrete states. -/
theorem checkIsRecording_status_spec_witness :
    DetailView.checkIsRecording ⟨none, .absent, [], []⟩ = (⟨false, none⟩, ⟨none, .absent, [], []⟩) ∧
    DetailView.checkIsRecording ⟨some " 7\n", .absent, [], ["7"]⟩ =
      (⟨true, some (jsTrimS " 7\n")⟩, ⟨some " 7\n", .absent, [], ["7"]⟩) ∧
    DetailView.checkIsRecording ⟨some "9", .absent, [], ["7"]⟩ =
      (⟨false, none⟩, { World.mk (some "9") .absent [] ["7"] with pidFile := none }) := by
  refine ⟨(checkIsRecording_status_spec _).1 rfl,
    (checkIsRecording_status_spec _).2.1 " 7\n" rfl (by decide),
    (checkIsRecording_status_spec _).2.2.1 "9" rfl (by decide)⟩

/-- Claim C2 (code bug evidence): when the subprocess fails to spawn,
the Detail-view `startRecording` does append the spawn error to the log
file, but it still writes the marker file — with the literal content
"undefined" (`String(child.pid)` with `child.pid === undefined`) — and
returns normally, and the toggle command's `startRecording` does the
same; the spec says the marker is left absent and the failure surfaced
as an error. -/
theorem startRecording_spawn_failure (prefs : DetailView.Preferences)
    (tprefs : ToggleCmd.Preferences) (env : Env) (now : JsDate) (w : World)
    (h : env.spawnPid = none) :
    (DetailView.startRecording prefs env now w).pidFile = some "undefined" ∧
    (∃ hdr, (DetailView.startRecording prefs env now w).logFile =
      .content (hdr ++ "\nSPAWN ERROR: " ++ env.spawnErr ++ "\n")) ∧
    (ToggleCmd.startRecording tprefs env now w).pidFile = some "undefined" := by
  unfold DetailView.startRecording ToggleCmd.startRecording
  rw [h]
  exact ⟨rfl, ⟨_, rfl⟩, rfl⟩

/-- Claim C2 witness: the failed-spawn state at a concrete input. -/
theorem startRecording_spawn_failure_witness :
    (DetailView.startRecording ⟨none, none, none⟩
      ⟨none, .fails, none, "Error: spawn ffmpeg ENOENT", "/home/u"⟩
      ⟨2024, 5, 17, 10, 30, 15, 0⟩ ⟨none, .absent, [], []⟩).pidFile = some "undefined" ∧
    (∃ hdr, (DetailView.startRecording ⟨none, none, none⟩
      ⟨none, .fails, none, "Error: spawn ffmpeg ENOENT", "/home/u"⟩
      ⟨2024, 5, 17, 10, 30, 15, 0⟩ ⟨none, .absent, [], []⟩).logFile =
      .content (hdr ++ "\nSPAWN ERROR: " ++
        (Env.mk none .fails none "Error: spawn ffmpeg ENOENT" "/home/u").spawnErr ++ "\n")) ∧
    (ToggleCmd.startRecording ⟨none, none, none, none, none⟩
      ⟨none, .fails, none, "Error: spawn ffmpeg ENOENT", "/home/u"⟩
      ⟨2024, 5, 17, 10, 30, 15, 0⟩ ⟨none, .absent, [], []⟩).pidFile = some "undefined" :=
  startRecording_spawn_failure _ _ _ _ _ rfl

/-- Claim C3: after `startRecording` followed by `stopRecording` the
marker file is absent, in both variants, for every starting state —
in particular whatever the set of alive processes is, so both when the
signaled process was still alive and when it had already exited
(`stopRecording` swallows the `kill` failure in both variants). -/
theorem marker_absent_after_start_stop (prefs : DetailView.Preferences)
    (tprefs : ToggleCmd.Preferences) (env : Env) (now : JsDate) (w : World) :
    (DetailView.stopRecording (DetailView.startRecording prefs env now w)).pidFile = none ∧
    ∃ w2, ToggleCmd.stopRecording (ToggleCmd.startRecording tprefs env now w) = .ok w2 ∧
      w2.pidFile = none := by
  refine ⟨rfl, ⟨_, rfl, rfl⟩⟩

/-- Claim C4 counterexample: the claim asserts that `stopRecording` is a
no-op returning normally whenever the marker file is absent, but the
toggle command's `stopRecording` reads the marker file unconditionally,
so on a state with no marker it raises (ENOENT) instead of returning. -/
theorem toggle_stop_without_marker_raises :
    ToggleCmd.stopRecording ⟨none, .absent, [], []⟩ = .error "ENOENT" := rfl

/-- Claim C4 amended: when the marker file is absent, the Detail-view
`stopRecording` is a no-op that returns normally and changes no file,
while the toggle command's `stopRecording` raises ENOENT because it
reads the marker file without an existence guard. -/
theorem stop_without_marker_behavior (w : World) (h : w.pidFile = none) :
    DetailView.stopRecording w = w ∧ ToggleCmd.stopRecording w = .error "ENOENT" := by
  unfold DetailView.stopRecording ToggleCmd.stopRecording
  rw [h]
  exact ⟨rfl, rfl⟩

/-- Claim C4 amended witness. -/
theorem stop_without_marker_behavior_witness :
    DetailView.stopRecording ⟨none, .content "log", ["/d"], ["3"]⟩ =
      ⟨none, .content "log", ["/d"], ["3"]⟩ ∧
    ToggleCmd.stopRecording ⟨none, .content "log", ["/d"], ["3"]⟩ = .error "ENOENT" :=
  stop_without_marker_behavior _ rfl

/-- Claim C5: on a marker that references a process id that is not
alive, the status check returns inactive and removes the marker, and it
is idempotent: run again from the resulting state it returns the same
inactive result (and, being a total function, raises no error); the same
holds for the toggle command's `isRecording`. -/
theorem status_check_stale_marker_idempotent (w : World) (c : String)
    (hm : w.pidFile = some c) (ha : jsTrimS c ∉ w.alive) :
    DetailView.checkIsRecording w = (⟨false, none⟩, { w with pidFile := none }) ∧
    DetailView.checkIsRecording { w with pidFile := none } =
      (⟨false, none⟩, { w with pidFile := none }) ∧
    ToggleCmd.isRecording w = (false, { w with pidFile := none }) ∧
    ToggleCmd.isRecording { w with pidFile := none } =
      (false, { w with pidFile := none }) := by
  refine ⟨?_, rfl, ?_, rfl⟩
  · unfold DetailView.checkIsRecording; rw [hm]; simp [ha]
  · unfold ToggleCmd.isRecording; rw [hm]; simp [ha]

/-- Claim C5 witness. -/
theorem status_check_stale_marker_idempotent_witness :
    DetailView.checkIsRecording ⟨some "42", .absent, [], ["7"]⟩ =
      (⟨false, none⟩, { World.mk (some "42") .absent [] ["7"] with pidFile := none }) ∧
    DetailView.checkIsRecording { World.mk (some "42") .absent [] ["7"] with pidFile := none } =
      (⟨false, none⟩, { World.mk (some "42") .absent [] ["7"] with pidFile := none }) ∧
    ToggleCmd.isRecording ⟨some "42", .absent, [], ["7"]⟩ =
      (false, { World.mk (some "42") .absent [] ["7"] with pidFile := none }) ∧
    ToggleCmd.isRecording { World.mk (some "42") .absent [] ["7"] with pidFile := none } =
      (false, { World.mk (some "42") .absent [] ["7"] with pidFile := none }) :=
  status_check_stale_marker_idempotent _ "42" rfl (by decide)

/-- Claim C6 counterexample: a log whose raw content has 26 lines, the
last being a single space.  `readLogTail` trims the content before
splitting, so the whitespace-only final line is dropped: the result is
the first 25 lines, not the last 25 lines of the file. -/
theorem readLogTail_trailing_whitespace_counterexample :
    25 < (jsSplit '\n' spacedTailLog).length ∧
    DetailView.readLogTail (.content spacedTailLog) ≠
      String.intercalate "\n" ((jsSplit '\n' spacedTailLog).drop
        ((jsSplit '\n' spacedTailLog).length - 25)) := by
  constructor
  · decide
  · decide

/-- Claim C6 amended: for a log whose content has more than 25 lines and
carries no leading or trailing whitespace (so the `trim` performed by the
code does not change it), `readLogTail` returns exactly the last 25
lines, in original order, joined by newlines. -/
theorem readLogTail_last_25_lines (s : String) (ht : jsTrimS s = s)
    (hn : 25 < (jsSplit '\n' s).length) :
    DetailView.readLogTail (.content s) =
      String.intercalate "\n" ((jsSplit '\n' s).drop ((jsSplit '\n' s).length - 25)) := by
  have hs : ¬ (s = "") := by
    rintro rfl
    simp [jsSplit, splitCharAux] at hn
  unfold DetailView.readLogTail
  simp only [ht, hs, if_false, ite_false]

/-- Claim C6 amended witness: a 26-line log with no surrounding
whitespace. -/
theorem readLogTail_last_25_lines_witness :
    DetailView.readLogTail (.content
      "x\nx\nx\nx\nx\nx\nx\nx\nx\nx\nx\nx\nx\nx\nx\nx\nx\nx\nx\nx\nx\nx\nx\nx\nx\nx") =
      String.intercalate "\n" ((jsSplit '\n'
        "x\nx\nx\nx\nx\nx\nx\nx\nx\nx\nx\nx\nx\nx\nx\nx\nx\nx\nx\nx\nx\nx\nx\nx\nx\nx").drop
        ((jsSplit '\n'
        "x\nx\nx\nx\nx\nx\nx\nx\nx\nx\nx\nx\nx\nx\nx\nx\nx\nx\nx\nx\nx\nx\nx\nx\nx\nx").length - 25)) :=
  readLogTail_last_25_lines _ (by decide) (by decide)

/-- Claim C7: `readLogTail` is a total function of the observed log
state — no filesystem condition makes it raise — and on an absent,
unreadable, or (once trimmed) empty log it returns the corresponding
fixed user-facing placeholder string. -/
theorem readLogTail_placeholder_spec :
    DetailView.readLogTail .absent =
      "_No log yet. Start a recording to see ffmpeg output here._" ∧
    DetailView.readLogTail .unreadable = "_Could not read log_" ∧
    ∀ s, jsTrimS s = "" → DetailView.readLogTail (.content s) = "_Log is empty_" := by
  refine ⟨rfl, rfl, fun s h => ?_⟩
  unfold DetailView.readLogTail
  simp [h]

/-- Claim C7 witness: placeholders at concrete log states. -/
theorem readLogTail_placeholder_spec_witness :
    DetailView.readLogTail .absent =
      "_No log yet. Start a recording to see ffmpeg output here._" ∧
    DetailView.readLogTail .unreadable = "_Could not read log_" ∧
    DetailView.readLogTail (.content " \n ") = "_Log is empty_" :=
  ⟨readLogTail_placeholder_spec.1, readLogTail_placeholder_spec.2.1,
    readLogTail_placeholder_spec.2.2 " \n " (by decide)⟩

/-- Claim C9: `detectResolution` never raises (it is total over every
outcome of the external display-info pipeline) and returns the fixed
default "1920x1080" on every failure: the pipeline exiting non-zero
(`execSync` throws, which the code catches), or — covering a missing
utility and unparsable output, where `grep | awk` produce nothing —
output that trims to the empty string. -/
theorem detectResolution_fallback_spec (display : String) :
    DetailView.detectResolution display .fails = "1920x1080" ∧
    ∀ out, jsTrimS out = "" →
      DetailView.detectResolution display (.succeeds out) = "1920x1080" := by
  refine ⟨rfl, fun out h => ?_⟩
  unfold DetailView.detectResolution
  simp [h]

/-- Claim C9 witness. -/
theorem detectResolution_fallback_spec_witness :
    DetailView.detectResolution ":0" .fails = "1920x1080" ∧
    DetailView.detectResolution ":0" (.succeeds "\n  \n") = "1920x1080" :=
  ⟨(detectResolution_fallback_spec ":0").1,
    (detectResolution_fallback_spec ":0").2 "\n  \n" (by decide)⟩

/-- Claim C8: two `startRecording` calls at wall-clock times at least one
second apart (their instants differ by at least 1000 ms) produce distinct
output file paths — the filename embeds the second-granularity timestamp
`YYYY-MM-DDTHH-mm-ss` with colons and periods replaced by dashes — and
every produced path resolves directly inside the resolved output
directory, which exists after `getOutputDir` (created recursively when
absent).  Both calls use the directory resolved from the same
configuration. -/
theorem outputFile_unique_and_inside_dir (prefs : DetailView.Preferences) (home : String)
    (w : World) (d1 d2 : JsDate) (h1 : d1.valid) (h2 : d2.valid)
    (hsep : d1.epochMs + 1000 ≤ d2.epochMs ∨ d2.epochMs + 1000 ≤ d1.epochMs) :
    outputFileFor (DetailView.getOutputDir prefs home w).1 d1 ≠
      outputFileFor (DetailView.getOutputDir prefs home w).1 d2 ∧
    (∀ d : JsDate, insideDir (DetailView.getOutputDir prefs home w).1
      (outputFileFor (DetailView.getOutputDir prefs home w).1 d)) ∧
    ((DetailView.getOutputDir prefs home w).2.dirs.contains
      (DetailView.getOutputDir prefs home w).1) = true := by
  have hts : timestampChars d1 ≠ timestampChars d2 := by
    intro he
    obtain ⟨hy, hmo, hd, hh, hmi, hs⟩ := timestampChars_fields d1 d2 h1 h2 he
    have hcl := epoch_close_of_fields_eq d1 d2 h1 h2 hy hmo hd hh hmi hs
    rcases hsep with hsep | hsep <;> omega
  exact ⟨outputFileFor_ne _ d1 d2 hts, fun d => outputFileFor_inside _ d,
    getOutputDir_creates prefs home w⟩

/-- Claim C8 witness: two dates one second apart at a concrete
configuration. -/
theorem outputFile_unique_and_inside_dir_witness :
    outputFileFor (DetailView.getOutputDir ⟨some "/rec", none, none⟩ "/home/u"
        ⟨none, .absent, [], []⟩).1 ⟨2024, 5, 17, 10, 30, 15, 0⟩ ≠
      outputFileFor (DetailView.getOutputDir ⟨some "/rec", none, none⟩ "/home/u"
        ⟨none, .absent, [], []⟩).1 ⟨2024, 5, 17, 10, 30, 16, 0⟩ ∧
    insideDir (DetailView.getOutputDir ⟨some "/rec", none, none⟩ "/home/u"
        ⟨none, .absent, [], []⟩).1
      (outputFileFor (DetailView.getOutputDir ⟨some "/rec", none, none⟩ "/home/u"
        ⟨none, .absent, [], []⟩).1 ⟨2024, 5, 17, 10, 30, 15, 0⟩) ∧
    ((DetailView.getOutputDir ⟨some "/rec", none, none⟩ "/home/u"
        ⟨none, .absent, [], []⟩).2.dirs.contains
      (DetailView.getOutputDir ⟨some "/rec", none, none⟩ "/home/u"
        ⟨none, .absent, [], []⟩).1) = true := by
  have h := outputFile_unique_and_inside_dir ⟨some "/rec", none, none⟩ "/home/u"
    ⟨none, .absent, [], []⟩ ⟨2024, 5, 17, 10, 30, 15, 0⟩ ⟨2024, 5, 17, 10, 30, 16, 0⟩
    (by decide) (by decide) (Or.inl (by decide))
  exact ⟨h.1, h.2.1 ⟨2024, 5, 17, 10, 30, 15, 0⟩, h.2.2⟩

/-- Claim C10: a missing, empty, or whitespace-only `outputDir`
preference is falsy after `?.trim()`, so `getOutputDir` falls back to
the user's home `Videos` directory, and that directory exists afterwards
(created, with its ancestors, when absent); a whitespace-only preference
is therefore never used as a path. -/
theorem getOutputDir_blank_pref_fallback (prefs : DetailView.Preferences)
    (home : String) (w : World)
    (h : prefs.outputDir = none ∨ ∃ s, prefs.outputDir = some s ∧ jsTrimS s = "") :
    (DetailView.getOutputDir prefs home w).1 = pathJoin home "Videos" ∧
    ((DetailView.getOutputDir prefs home w).2.dirs.contains (pathJoin home "Videos")) = true ∧
    (w.dirs.contains (pathJoin home "Videos") = true →
      (DetailView.getOutputDir prefs home w).2 = w) := by
  have hdir : orElseStr (prefs.outputDir.map jsTrimS) (pathJoin home "Videos") =
      pathJoin home "Videos" := by
    rcases h with h | ⟨s, hs, ht⟩
    · simp [h, orElseStr]
    · simp [hs, ht, orElseStr]
  have h1 : (DetailView.getOutputDir prefs home w).1 = pathJoin home "Videos" := by
    simp only [DetailView.getOutputDir]
    rw [hdir]
    by_cases hc : w.dirs.contains (pathJoin home "Videos") = true
    · rw [if_pos hc]
    · rw [if_neg hc]
  refine ⟨h1, h1 ▸ getOutputDir_creates prefs home w, fun hc => ?_⟩
  simp only [DetailView.getOutputDir]
  rw [hdir, if_pos hc]

/-- Claim C10 witness: a whitespace-only preference at a concrete state. -/
theorem getOutputDir_blank_pref_fallback_witness :
    (DetailView.getOutputDir ⟨some "  ", none, none⟩ "/home/u" ⟨none, .absent, [], []⟩).1 =
      pathJoin "/home/u" "Videos" ∧
    ((DetailView.getOutputDir ⟨some "  ", none, none⟩ "/home/u"
      ⟨none, .absent, [], []⟩).2.dirs.contains (pathJoin "/home/u" "Videos")) = true ∧
    ((World.mk none .absent [] []).dirs.contains (pathJoin "/home/u" "Videos") = true →
      (DetailView.getOutputDir ⟨some "  ", none, none⟩ "/home/u"
        ⟨none, .absent, [], []⟩).2 = ⟨none, .absent, [], []⟩) :=
  getOutputDir_blank_pref_fallback _ _ _ (Or.inr ⟨"  ", rfl, by decide⟩)

end VicinaeFFmpeg
